/-
  Verification development for the youtube-transcript-sdk TypeScript client
  (src/client.ts, src/errors.ts, src/types.ts).

  Shallow embedding conventions:
  * TypeScript `string` is Lean `String`; a missing/undefined optional string
    field is `Option.none`, and JavaScript falsy-or (`a || b`) on strings
    treats both `none` and the empty string as falsy.
  * TypeScript `number` fields used by the client (timeout, interval,
    maxAttempts, HTTP status) are modelled as `Nat`; JavaScript falsy-or on
    numbers treats `none` and `0` as falsy.  The one place where a JavaScript
    number can be NaN (`parseInt` of the Retry-After header) is modelled
    explicitly with the `JSNum` type.
  * `Record<string, unknown>` values are opaque to the client; they are
    modelled as association lists of strings.
  * Thrown JavaScript errors are modelled with `ThrownError`: `typed e` is an
    `instanceof YouTubeTranscriptError` throw, `plain msg` is a bare
    `new Error(msg)`.
  * The network is modelled as an explicit input: a `fetch` outcome for a
    single request, or a stream `Nat → response` of successive poll results
    for the polling loops.  Each poll loop iteration makes exactly one call;
    the `calls` field of `PollRun` counts them.
-/
import Mathlib

set_option linter.unusedVariables false

namespace YTSdk

/-! ## types.ts: request/response DTOs -/

/-- Opaque `Record<string, unknown>` payloads, modelled as assoc lists. -/
abbrev JsRecord := List (String × String)

/-- Caption source preference (`"auto" | "manual" | "asr"`). -/
inductive Source where
  | auto
  | manual
  | asr
deriving DecidableEq, Repr

/-- Model of `FormatOptions` from types.ts. -/
structure FormatOptions where
  timestamp : Option Bool
  paragraphs : Option Bool
  words : Option Bool
deriving DecidableEq, Repr

/-- Model of `TranscribeRequest` from types.ts. -/
structure TranscribeRequest where
  video : String
  language : Option String
  source : Option Source
  allow_asr : Option Bool
  format : Option FormatOptions
  webhook_url : Option String
deriving DecidableEq, Repr

/-- Model of `BatchRequest` from types.ts. -/
structure BatchRequest where
  video_ids : List String
  language : Option String
  source : Option Source
  allow_asr : Option Bool
  format : Option FormatOptions
  webhook_url : Option String
deriving DecidableEq, Repr

/-- Model of `TranscriptPayload` from types.ts. -/
structure TranscriptPayload where
  text : String
  language : String
  source : String
  segments : Option (List JsRecord)
  paragraphs : Option (List JsRecord)
  words : Option (List JsRecord)
deriving DecidableEq, Repr

/-- Model of `TranscribeStatus` from types.ts. -/
inductive TranscribeStatus where
  | completed
  | processing
  | failed
  | requires_asr_confirmation
deriving DecidableEq, Repr

/-- The `data` field of `TranscribeResponse`. -/
structure TranscribeData where
  video_id : String
  transcript : TranscriptPayload
  video_title : Option String
deriving DecidableEq, Repr

/-- Model of `TranscribeResponse` from types.ts. -/
structure TranscribeResponse where
  request_id : String
  status : TranscribeStatus
  data : Option TranscribeData
  error : Option String
  job_id : Option String
  estimated_credits : Option Nat
  duration_minutes : Option Nat
  suggestion : Option String
  credits_used : Option Nat
deriving DecidableEq, Repr

/-- Model of `BatchStatus` from types.ts: note there is no `failed` batch status.
`partialStatus` models the TypeScript string literal for a partially done
batch (that literal is a reserved word in Lean). -/
inductive BatchStatus where
  | completed
  | partialStatus
  | processing
deriving DecidableEq, Repr

/-- The `summary` field of `BatchResponse`. -/
structure BatchSummary where
  total : Nat
  succeeded : Nat
  failed : Nat
  processing : Nat
deriving DecidableEq, Repr

/-- Model of `BatchResponse` from types.ts. -/
structure BatchResponse where
  batch_id : String
  status : BatchStatus
  results : List TranscribeResponse
  summary : Option BatchSummary
  credits_used : Option Nat
deriving DecidableEq, Repr

/-- Model of `ErrorResponse` from types.ts (a missing `message` is the empty string,
which is falsy, matching the `body.message || body.error` fallback). -/
structure ErrorResponse where
  error : String
  message : String
  details : Option JsRecord
deriving DecidableEq, Repr

/-- Model of `YouTubeTranscriptOptions` from types.ts. -/
structure YouTubeTranscriptOptions where
  apiKey : String
  baseUrl : Option String
  timeout : Option Nat
deriving DecidableEq, Repr

/-! ## errors.ts: the error taxonomy

JavaScript subclassing carries no behaviour here, only the `name` tag and the
extra `retryAfter` field of `RateLimitError`; every variant is represented by
one record whose `name` field is the class name set in its constructor. -/

/-- A JavaScript number that may be NaN (result of `parseInt`). -/
inductive JSNum where
  | nan
  | num (n : Int)
deriving DecidableEq, Repr

/-- One error object of the errors.ts hierarchy.  `name` is the class tag,
`retryAfter` is `none` for every class except (possibly) `RateLimitError`. -/
structure YouTubeTranscriptError where
  name : String
  status : Nat
  errorCode : String
  message : String
  details : Option JsRecord
  retryAfter : Option JSNum
deriving DecidableEq, Repr

/-- The base-class constructor `YouTubeTranscriptError(status, body)`:
`super(body.message || body.error)`, `errorCode = body.error`,
`details = body.details`. -/
def mkYouTubeTranscriptError (status : Nat) (body : ErrorResponse) :
    YouTubeTranscriptError :=
  { name := "YouTubeTranscriptError"
    status := status
    errorCode := body.error
    message := if body.message = "" then body.error else body.message
    details := body.details
    retryAfter := none }

/-- Model of `InvalidRequestError(body)`: `super(400, body)`, then sets the name tag. -/
def mkInvalidRequestError (body : ErrorResponse) : YouTubeTranscriptError :=
  { mkYouTubeTranscriptError 400 body with name := "InvalidRequestError" }

/-- Model of `AuthenticationError(body)`: `super(401, body)`. -/
def mkAuthenticationError (body : ErrorResponse) : YouTubeTranscriptError :=
  { mkYouTubeTranscriptError 401 body with name := "AuthenticationError" }

/-- Model of `InsufficientCreditsError(body)`: `super(402, body)`. -/
def mkInsufficientCreditsError (body : ErrorResponse) : YouTubeTranscriptError :=
  { mkYouTubeTranscriptError 402 body with name := "InsufficientCreditsError" }

/-- Model of `NoCaptionsError(body)`: `super(404, body)`. -/
def mkNoCaptionsError (body : ErrorResponse) : YouTubeTranscriptError :=
  { mkYouTubeTranscriptError 404 body with name := "NoCaptionsError" }

/-- Model of `RateLimitError(body, retryAfter?)`: `super(429, body)` and stores the
optional `retryAfter` number. -/
def mkRateLimitError (body : ErrorResponse) (retryAfter : Option JSNum) :
    YouTubeTranscriptError :=
  { mkYouTubeTranscriptError 429 body with
      name := "RateLimitError"
      retryAfter := retryAfter }

/-- A thrown JavaScript error: either an `instanceof YouTubeTranscriptError`
or a bare `new Error(message)`. -/
inductive ThrownError where
  | typed (e : YouTubeTranscriptError)
  | plain (message : String)
deriving DecidableEq, Repr

/-- The `instanceof YouTubeTranscriptError` test. -/
def ThrownError.isTypedTranscriptError : ThrownError → Bool
  | .typed _ => true
  | .plain _ => false

/-! ## JavaScript helpers used by client.ts -/

/-- Falsy-or on an optional string: `a || d` where both `undefined` and the
empty string are falsy. -/
def jsOrStr (a : Option String) (d : String) : String :=
  match a with
  | none => d
  | some s => if s = "" then d else s

/-- Falsy-or on an optional number: `a || d` where both `undefined` and `0`
are falsy. -/
def jsOrNat (a : Option Nat) (d : Nat) : Nat :=
  match a with
  | none => d
  | some n => if n = 0 then d else n

/-- Digit accumulation for `parseInt`. -/
def digitsToNat : List Char → Nat → Nat
  | [], acc => acc
  | c :: cs, acc => digitsToNat cs (acc * 10 + (c.toNat - Char.toNat (Char.ofNat 48)))

/-- Strip one optional leading sign, returning the sign and the rest. -/
def stripSign : List Char → Int × List Char
  | [] => (1, [])
  | c :: cs =>
    if c = Char.ofNat 45 then (-1, cs)
    else if c = Char.ofNat 43 then (1, cs)
    else (1, c :: cs)

/-- JavaScript `parseInt(s, 10)`: skip leading whitespace, read an optional
sign, then the longest prefix of decimal digits; NaN when there is none. -/
def parseInt10 (s : String) : JSNum :=
  let trimmed := s.data.dropWhile (fun c => c.isWhitespace)
  let signed := stripSign trimmed
  let digits := signed.2.takeWhile (fun c => c.isDigit)
  if digits.isEmpty then .nan
  else .num (signed.1 * (digitsToNat digits 0 : Int))

/-- Specification-side predicate for when `parseInt` succeeds: after
optional leading whitespace and an optional sign, the string starts with a
decimal digit.  (Used to characterize which `Retry-After` headers produce a
non-NaN `retryAfter`.) -/
def leadsWithDigit (s : String) : Bool :=
  match s.data.dropWhile (fun c => c.isWhitespace) with
  | [] => false
  | c :: cs =>
    if c = Char.ofNat 45 ∨ c = Char.ofNat 43 then
      match cs with
      | [] => false
      | d :: _ => d.isDigit
    else c.isDigit

/-- Response headers: `Headers.get` returns the header value or `null`. -/
def HeadersMap := String → Option String

/-- Model of `headers.get(name)`. -/
def HeadersMap.get (h : HeadersMap) (name : String) : Option String := h name

/-! ## client.ts: the error mapper -/

/-- Model of `createError(status, body, headers)` from client.ts: the `switch` on the
HTTP status code.  On 429 the `Retry-After` header is read; a `null` or empty
header is falsy so `retryAfter` stays `undefined`, otherwise it is
`parseInt(header, 10)` (possibly NaN). -/
def createError (status : Nat) (body : ErrorResponse) (headers : HeadersMap) :
    YouTubeTranscriptError :=
  if status = 400 then mkInvalidRequestError body
  else if status = 401 then mkAuthenticationError body
  else if status = 402 then mkInsufficientCreditsError body
  else if status = 404 then mkNoCaptionsError body
  else if status = 429 then
    let retryAfter := headers.get "Retry-After"
    mkRateLimitError body
      (match retryAfter with
       | none => none
       | some s => if s = "" then none else some (parseInt10 s))
  else mkYouTubeTranscriptError status body

/-! ## client.ts: construction -/

/-- Model of `DEFAULT_BASE_URL` from client.ts. -/
def DEFAULT_BASE_URL : String := "https://youtubetranscript.dev/api/v2"

/-- Model of `DEFAULT_TIMEOUT` from client.ts (30 000 ms). -/
def DEFAULT_TIMEOUT : Nat := 30000

/-- Model of `(...).replace(slashesAtEnd, "")` on the base URL: remove every trailing
slash character. -/
def stripTrailingSlashes (s : String) : String :=
  String.mk ((s.data.reverse.dropWhile (fun c => c = Char.ofNat 47)).reverse)

/-- The client configuration held in the private readonly fields. -/
structure ClientState where
  apiKey : String
  baseUrl : String
  timeout : Nat
deriving DecidableEq, Repr

/-- The `YouTubeTranscript` constructor: throws a plain error when the apiKey
is falsy (missing or empty), otherwise stores the key, the trailing-slash
normalized base URL (custom or default, falsy-or) and the timeout
(custom or default, falsy-or).  No network interaction occurs. -/
def mkClient (options : YouTubeTranscriptOptions) : Except ThrownError ClientState :=
  if options.apiKey = "" then
    .error (.plain "API key is required. Get one at https://youtubetranscript.dev")
  else
    .ok { apiKey := options.apiKey
          baseUrl := stripTrailingSlashes (jsOrStr options.baseUrl DEFAULT_BASE_URL)
          timeout := jsOrNat options.timeout DEFAULT_TIMEOUT }

/-! ## client.ts: request building and the transport step -/

/-- A serialized request body (`JSON.stringify(body)` keeps the value
unchanged in the model). -/
inductive RequestBody where
  | transcribeBody (r : TranscribeRequest)
  | batchBody (r : BatchRequest)
deriving DecidableEq, Repr

/-- The single HTTP request built by `request(method, path, body?)`:
`url = baseUrl + path` plus the three fixed headers. -/
structure HttpRequest where
  method : String
  url : String
  authorization : String
  contentType : String
  userAgent : String
  body : Option RequestBody
deriving DecidableEq, Repr

/-- The concatenation `this.baseUrl + path`, the URL built at the top of `request`. -/
def requestUrl (c : ClientState) (path : String) : String :=
  c.baseUrl ++ path

/-- The `fetch(url, {...})` argument object built by `request`. -/
def buildRequest (c : ClientState) (method : String) (path : String)
    (body : Option RequestBody) : HttpRequest :=
  { method := method
    url := requestUrl c path
    authorization := "Bearer " ++ c.apiKey
    contentType := "application/json"
    userAgent := "youtube-transcript-sdk/1.0.0"
    body := body }

/-- A completed `fetch` whose body parsed as JSON: the same parsed value is
available as the success payload (`data as T`) and as an `ErrorResponse`
(`createError`'s view of it), mirroring the dynamic cast. -/
structure FetchSuccess (α : Type) where
  status : Nat
  json : α
  errJson : ErrorResponse
  headers : HeadersMap

/-- The outcome of one `fetch` call: a parsed response, an abort (the timeout
timer fired first), or another transport failure. -/
inductive FetchResult (α : Type) where
  | ok (r : FetchSuccess α)
  | abortError
  | otherFailure (message : String)

/-- Model of `Response.ok` per the fetch specification: status in [200, 300). -/
def responseOk (status : Nat) : Bool :=
  decide (200 ≤ status) && decide (status < 300)

/-- The `request` method of client.ts, given the outcome of its single
`fetch`: a 2xx response returns the parsed body; a non-2xx response throws
the mapped typed error; an abort throws the plain timeout error naming the
path and the configured timeout; any other failure propagates untyped. -/
def request {α : Type} (c : ClientState) (path : String)
    (fetched : FetchResult α) : Except ThrownError α :=
  match fetched with
  | .ok r =>
    if responseOk r.status then .ok r.json
    else .error (.typed (createError r.status r.errJson r.headers))
  | .abortError =>
    .error (.plain ("Request to " ++ path ++ " timed out after " ++
      toString c.timeout ++ "ms"))
  | .otherFailure msg => .error (.plain msg)

/-! ## client.ts: the public one-shot operations -/

/-- Query-string options of `getJob`. -/
structure GetJobOptions where
  include_segments : Option Bool
  include_paragraphs : Option Bool
  include_words : Option Bool
deriving DecidableEq, Repr

/-- Truthiness of an optional boolean flag (`options?.flag`). -/
def flagSet (b : Option Bool) : Bool := b.getD false

/-- The `URLSearchParams` built by `getJob`: flags are appended in source
order only when explicitly true, serialized as `name=true` joined by `&`. -/
def getJobQuery (options : Option GetJobOptions) : String :=
  let params :=
    (if flagSet (options.bind (·.include_segments))
      then ["include_segments=true"] else []) ++
    (if flagSet (options.bind (·.include_paragraphs))
      then ["include_paragraphs=true"] else []) ++
    (if flagSet (options.bind (·.include_words))
      then ["include_words=true"] else [])
  String.intercalate "&" params

/-- The path built by `getJob`: a `?query` suffix only when nonempty. -/
def getJobPath (jobId : String) (options : Option GetJobOptions) : String :=
  let query := getJobQuery options
  "/jobs/" ++ jobId ++ (if query = "" then "" else "?" ++ query)

/-- Model of `transcribe(request)`: POST the request to `/transcribe`; returns the
built HTTP request and the outcome of `request` on the fetch result. -/
def transcribe (c : ClientState) (req : TranscribeRequest)
    (fetched : FetchResult TranscribeResponse) :
    HttpRequest × Except ThrownError TranscribeResponse :=
  (buildRequest c "POST" "/transcribe" (some (.transcribeBody req)),
   request c "/transcribe" fetched)

/-- Model of `getTranscript(video, language?)`: the convenience alias building a
minimal `TranscribeRequest` and delegating to `transcribe`. -/
def getTranscript (c : ClientState) (video : String) (language : Option String)
    (fetched : FetchResult TranscribeResponse) :
    HttpRequest × Except ThrownError TranscribeResponse :=
  transcribe c
    { video := video, language := language, source := none,
      allow_asr := none, format := none, webhook_url := none } fetched

/-- Model of `batch(request)`: POST the request body, unchanged and unvalidated, to
`/batch`. -/
def batchOp (c : ClientState) (req : BatchRequest)
    (fetched : FetchResult BatchResponse) :
    HttpRequest × Except ThrownError BatchResponse :=
  (buildRequest c "POST" "/batch" (some (.batchBody req)),
   request c "/batch" fetched)

/-- Model of `getJob(jobId, options?)`: GET on the jobs path with optional flags. -/
def getJobOp (c : ClientState) (jobId : String) (options : Option GetJobOptions)
    (fetched : FetchResult TranscribeResponse) :
    HttpRequest × Except ThrownError TranscribeResponse :=
  (buildRequest c "GET" (getJobPath jobId options) none,
   request c (getJobPath jobId options) fetched)

/-- Model of `getBatch(batchId)`: GET on `/batch/{id}`. -/
def getBatchOp (c : ClientState) (batchId : String)
    (fetched : FetchResult BatchResponse) :
    HttpRequest × Except ThrownError BatchResponse :=
  (buildRequest c "GET" ("/batch/" ++ batchId) none,
   request c ("/batch/" ++ batchId) fetched)

/-! ## client.ts: the polling loops -/

/-- Model of `{ interval?, maxAttempts? }` of `waitForJob` / `waitForBatch`. -/
structure WaitOptions where
  interval : Option Nat
  maxAttempts : Option Nat
deriving DecidableEq, Repr

/-- Model of `options?.interval || 5_000`. -/
def resolvedInterval (options : Option WaitOptions) : Nat :=
  jsOrNat (options.bind (·.interval)) 5000

/-- Model of `options?.maxAttempts || 60`. -/
def resolvedMaxAttempts (options : Option WaitOptions) : Nat :=
  jsOrNat (options.bind (·.maxAttempts)) 60

/-- The loop guard of `waitForJob`: a job response is terminal exactly when
its status is `completed` or `failed`. -/
def jobStatusTerminal (s : TranscribeStatus) : Bool :=
  s = .completed || s = .failed

/-- The loop guard of `waitForBatch`: only `completed` is terminal. -/
def batchStatusTerminal (s : BatchStatus) : Bool :=
  s = .completed

/-- Outcome of a polling loop together with the number of poll calls made. -/
structure PollRun (α : Type) where
  result : Except ThrownError α
  calls : Nat
deriving Repr

/-- The `for` loop of `waitForJob`: iteration `i` polls `getJob(jobId)`
(modelled by the stream `poll i` of successful responses), returns the
response as soon as it is terminal, and throws the plain exhaustion error
after `maxAttempts` non-terminal iterations.  `i` is the loop index, the
fuel is the number of iterations left. -/
def waitForJobAux (jobId : String) (maxAttempts : Nat)
    (poll : Nat → TranscribeResponse) : Nat → Nat → PollRun TranscribeResponse
  | i, 0 =>
    ⟨.error (.plain ("Job " ++ jobId ++ " did not complete after " ++
      toString maxAttempts ++ " attempts")), i⟩
  | i, fuel + 1 =>
    let result := poll i
    if jobStatusTerminal result.status then ⟨.ok result, i + 1⟩
    else waitForJobAux jobId maxAttempts poll (i + 1) fuel

/-- Model of `waitForJob(jobId, options?)` on a stream of successful poll responses. -/
def waitForJob (jobId : String) (options : Option WaitOptions)
    (poll : Nat → TranscribeResponse) : PollRun TranscribeResponse :=
  let maxAttempts := resolvedMaxAttempts options
  waitForJobAux jobId maxAttempts poll 0 maxAttempts

/-- The `for` loop of `waitForBatch`, identical shape, `completed`-only
terminal condition, `Batch ... did not complete` exhaustion message. -/
def waitForBatchAux (batchId : String) (maxAttempts : Nat)
    (poll : Nat → BatchResponse) : Nat → Nat → PollRun BatchResponse
  | i, 0 =>
    ⟨.error (.plain ("Batch " ++ batchId ++ " did not complete after " ++
      toString maxAttempts ++ " attempts")), i⟩
  | i, fuel + 1 =>
    let result := poll i
    if batchStatusTerminal result.status then ⟨.ok result, i + 1⟩
    else waitForBatchAux batchId maxAttempts poll (i + 1) fuel

/-- Model of `waitForBatch(batchId, options?)` on a stream of successful poll
responses. -/
def waitForBatch (batchId : String) (options : Option WaitOptions)
    (poll : Nat → BatchResponse) : PollRun BatchResponse :=
  let maxAttempts := resolvedMaxAttempts options
  waitForBatchAux batchId maxAttempts poll 0 maxAttempts

/-! ## client.ts: the client seen as a state machine (for immutability)

Each public method reads the configuration and never writes it; `runOp`
threads the state explicitly and also records the (first) HTTP request the
method issues, so that the definition actually exercises every method's
request-building code path. -/

/-- One invocation of a public client method. -/
inductive ClientOp where
  | transcribeOp (r : TranscribeRequest)
  | getTranscriptOp (video : String) (language : Option String)
  | batchCallOp (r : BatchRequest)
  | getJobCallOp (jobId : String) (options : Option GetJobOptions)
  | getBatchCallOp (batchId : String)
  | waitForJobOp (jobId : String) (options : Option WaitOptions)
  | waitForBatchOp (batchId : String) (options : Option WaitOptions)
deriving Repr

/-- Run one method: the resulting client state and the (first) HTTP request
the method sends.  Polling loops call `getJob(jobId)` / `getBatch(batchId)`
with no extra options. -/
def runOp (c : ClientState) : ClientOp → ClientState × HttpRequest
  | .transcribeOp r =>
    (c, buildRequest c "POST" "/transcribe" (some (.transcribeBody r)))
  | .getTranscriptOp v l =>
    (c, buildRequest c "POST" "/transcribe" (some (.transcribeBody
      { video := v, language := l, source := none, allow_asr := none,
        format := none, webhook_url := none })))
  | .batchCallOp r =>
    (c, buildRequest c "POST" "/batch" (some (.batchBody r)))
  | .getJobCallOp jobId options =>
    (c, buildRequest c "GET" (getJobPath jobId options) none)
  | .getBatchCallOp batchId =>
    (c, buildRequest c "GET" ("/batch/" ++ batchId) none)
  | .waitForJobOp jobId _ =>
    (c, buildRequest c "GET" (getJobPath jobId none) none)
  | .waitForBatchOp batchId _ =>
    (c, buildRequest c "GET" ("/batch/" ++ batchId) none)

/-- Run a sequence of method invocations, threading the client state. -/
def runOps (c : ClientState) (ops : List ClientOp) : ClientState :=
  ops.foldl (fun s op => (runOp s op).1) c

/-! ## Concrete fixtures used by witnesses -/

/-- A processing job response (no payload yet). -/
def jobRespProcessing : TranscribeResponse :=
  { request_id := "req_1", status := .processing, data := none, error := none,
    job_id := some "job_abc123", estimated_credits := some 2,
    duration_minutes := none, suggestion := none, credits_used := none }

/-- A completed job response. -/
def jobRespCompleted : TranscribeResponse :=
  { request_id := "req_2", status := .completed,
    data := some
      { video_id := "dQw4w9WgXcQ",
        transcript :=
          { text := "hello", language := "en", source := "asr",
            segments := none, paragraphs := none, words := none },
        video_title := none },
    error := none, job_id := some "job_abc123", estimated_credits := none,
    duration_minutes := some 3, suggestion := none, credits_used := some 2 }

/-- A failed per-video result. -/
def jobRespFailed : TranscribeResponse :=
  { request_id := "req_3", status := .failed, data := none,
    error := some "no captions", job_id := none, estimated_credits := none,
    duration_minutes := none, suggestion := none, credits_used := none }

/-- A poll stream that is non-terminal twice and then completed. -/
def pollSeqJob : Nat → TranscribeResponse :=
  fun i => if i < 2 then jobRespProcessing else jobRespCompleted

/-- A poll stream that never reaches a terminal job status. -/
def pollSeqJobStuck : Nat → TranscribeResponse :=
  fun _ => jobRespProcessing

/-- A partial batch response containing a failed per-video result. -/
def batchRespPartial : BatchResponse :=
  { batch_id := "batch_1", status := .partialStatus,
    results := [jobRespFailed, jobRespProcessing],
    summary := some { total := 2, succeeded := 0, failed := 1, processing := 1 },
    credits_used := none }

/-- A completed batch response that still contains a failed per-video
result. -/
def batchRespCompleted : BatchResponse :=
  { batch_id := "batch_1", status := .completed,
    results := [jobRespFailed, jobRespCompleted],
    summary := some { total := 2, succeeded := 1, failed := 1, processing := 0 },
    credits_used := some 2 }

/-- A batch poll stream: partial twice (with a failed inner result), then
completed. -/
def pollSeqBatch : Nat → BatchResponse :=
  fun i => if i < 2 then batchRespPartial else batchRespCompleted

/-- A headers map carrying only a `Retry-After` value. -/
def hdrRetryAfter (v : String) : HeadersMap :=
  fun name => if name = "Retry-After" then some v else none

/-! ## Helper lemmas -/

lemma waitForJobAux_exhausts (jobId : String) (maxAttempts : Nat)
    (poll : Nat → TranscribeResponse) :
    ∀ (fuel i : Nat),
      (∀ j, i ≤ j → j < i + fuel → jobStatusTerminal (poll j).status = false) →
      waitForJobAux jobId maxAttempts poll i fuel =
        ⟨.error (.plain ("Job " ++ jobId ++ " did not complete after " ++
          toString maxAttempts ++ " attempts")), i + fuel⟩ := by
  intro fuel
  induction fuel with
  | zero => intro i h; simp [waitForJobAux]
  | succ fuel ih =>
    intro i h
    have hterm : jobStatusTerminal (poll i).status = false :=
      h i (Nat.le_refl i) (by omega)
    have step := ih (i + 1) (fun j hj1 hj2 => h j (by omega) (by omega))
    simp only [waitForJobAux, hterm, Bool.false_eq_true, if_false, step]
    have harith : i + 1 + fuel = i + (fuel + 1) := by omega
    rw [harith]

lemma waitForJobAux_finds (jobId : String) (maxAttempts : Nat)
    (poll : Nat → TranscribeResponse) :
    ∀ (fuel i k : Nat), i ≤ k → k < i + fuel →
      (∀ j, i ≤ j → j < k → jobStatusTerminal (poll j).status = false) →
      jobStatusTerminal (poll k).status = true →
      waitForJobAux jobId maxAttempts poll i fuel = ⟨.ok (poll k), k + 1⟩ := by
  intro fuel
  induction fuel with
  | zero => intro i k h1 h2; omega
  | succ fuel ih =>
    intro i k h1 h2 hbefore hterm
    by_cases hik : i = k
    · subst hik
      simp [waitForJobAux, hterm]
    · have hlt : i < k := by omega
      have hfalse : jobStatusTerminal (poll i).status = false :=
        hbefore i (Nat.le_refl i) hlt
      have step := ih (i + 1) k (by omega) (by omega)
        (fun j hj1 hj2 => hbefore j (by omega) hj2) hterm
      simp only [waitForJobAux, hfalse, Bool.false_eq_true, if_false, step]

lemma waitForBatchAux_exhausts (batchId : String) (maxAttempts : Nat)
    (poll : Nat → BatchResponse) :
    ∀ (fuel i : Nat),
      (∀ j, i ≤ j → j < i + fuel → batchStatusTerminal (poll j).status = false) →
      waitForBatchAux batchId maxAttempts poll i fuel =
        ⟨.error (.plain ("Batch " ++ batchId ++ " did not complete after " ++
          toString maxAttempts ++ " attempts")), i + fuel⟩ := by
  intro fuel
  induction fuel with
  | zero => intro i h; simp [waitForBatchAux]
  | succ fuel ih =>
    intro i h
    have hterm : batchStatusTerminal (poll i).status = false :=
      h i (Nat.le_refl i) (by omega)
    have step := ih (i + 1) (fun j hj1 hj2 => h j (by omega) (by omega))
    simp only [waitForBatchAux, hterm, Bool.false_eq_true, if_false, step]
    have harith : i + 1 + fuel = i + (fuel + 1) := by omega
    rw [harith]

lemma waitForBatchAux_finds (batchId : String) (maxAttempts : Nat)
    (poll : Nat → BatchResponse) :
    ∀ (fuel i k : Nat), i ≤ k → k < i + fuel →
      (∀ j, i ≤ j → j < k → batchStatusTerminal (poll j).status = false) →
      batchStatusTerminal (poll k).status = true →
      waitForBatchAux batchId maxAttempts poll i fuel = ⟨.ok (poll k), k + 1⟩ := by
  intro fuel
  induction fuel with
  | zero => intro i k h1 h2; omega
  | succ fuel ih =>
    intro i k h1 h2 hbefore hterm
    by_cases hik : i = k
    · subst hik
      simp [waitForBatchAux, hterm]
    · have hlt : i < k := by omega
      have hfalse : batchStatusTerminal (poll i).status = false :=
        hbefore i (Nat.le_refl i) hlt
      have step := ih (i + 1) k (by omega) (by omega)
        (fun j hj1 hj2 => hbefore j (by omega) hj2) hterm
      simp only [waitForBatchAux, hfalse, Bool.false_eq_true, if_false, step]

/-! ## Claim theorems -/

/-- C1: for every HTTP status in {400, 401, 402, 404, 429} and every error
payload, `createError` returns exactly the corresponding variant
(`InvalidRequestError`, `AuthenticationError`, `InsufficientCreditsError`,
`NoCaptionsError`, `RateLimitError`) whose status field equals the input
status; for every other non-2xx status it returns the generic
`YouTubeTranscriptError` carrying that exact status. -/
theorem createError_status_table (body : ErrorResponse) (headers : HeadersMap) :
    ((createError 400 body headers).name = "InvalidRequestError" ∧
      (createError 400 body headers).status = 400) ∧
    ((createError 401 body headers).name = "AuthenticationError" ∧
      (createError 401 body headers).status = 401) ∧
    ((createError 402 body headers).name = "InsufficientCreditsError" ∧
      (createError 402 body headers).status = 402) ∧
    ((createError 404 body headers).name = "NoCaptionsError" ∧
      (createError 404 body headers).status = 404) ∧
    ((createError 429 body headers).name = "RateLimitError" ∧
      (createError 429 body headers).status = 429) ∧
    (∀ status : Nat, ¬ (200 ≤ status ∧ status < 300) →
      status ∉ ([400, 401, 402, 404, 429] : List Nat) →
      (createError status body headers).name = "YouTubeTranscriptError" ∧
      (createError status body headers).status = status) := by
  refine ⟨?_, ?_, ?_, ?_, ?_, ?_⟩
  · simp [createError, mkInvalidRequestError, mkYouTubeTranscriptError]
  · simp [createError, mkAuthenticationError, mkYouTubeTranscriptError]
  · simp [createError, mkInsufficientCreditsError, mkYouTubeTranscriptError]
  · simp [createError, mkNoCaptionsError, mkYouTubeTranscriptError]
  · simp [createError, mkRateLimitError, mkYouTubeTranscriptError]
  · intro status h2xx hmem
    simp only [List.mem_cons, List.not_mem_nil, or_false, not_or] at hmem
    obtain ⟨h1, h2, h3, h4, h5⟩ := hmem
    simp [createError, h1, h2, h3, h4, h5, mkYouTubeTranscriptError]

/-- Witness for C1: the generic branch at status 500. -/
theorem createError_status_table_witness :
    (createError 500 ⟨"server_error", "boom", none⟩ (fun _ => none)).name =
      "YouTubeTranscriptError" ∧
    (createError 500 ⟨"server_error", "boom", none⟩ (fun _ => none)).status =
      500 :=
  (createError_status_table ⟨"server_error", "boom", none⟩
    (fun _ => none)).2.2.2.2.2 500 (by decide) (by decide)

/-- C2: `waitForJob` returns the response of the first polled iteration whose
status is `completed` or `failed`, having made exactly `k + 1` `getJob`
calls when that iteration has index `k` (so it never polls again after a
terminal status); if all of the first `maxAttempts` responses are
non-terminal, it fails with the plain polling-exhaustion error after exactly
`maxAttempts` calls. -/
theorem waitForJob_polling (jobId : String) (options : Option WaitOptions)
    (poll : Nat → TranscribeResponse) :
    (∀ k, k < resolvedMaxAttempts options →
      (∀ j, j < k → jobStatusTerminal (poll j).status = false) →
      jobStatusTerminal (poll k).status = true →
      waitForJob jobId options poll = ⟨.ok (poll k), k + 1⟩) ∧
    ((∀ j, j < resolvedMaxAttempts options →
        jobStatusTerminal (poll j).status = false) →
      waitForJob jobId options poll =
        ⟨.error (.plain ("Job " ++ jobId ++ " did not complete after " ++
          toString (resolvedMaxAttempts options) ++ " attempts")),
         resolvedMaxAttempts options⟩) := by
  constructor
  · intro k hk hbefore hterm
    have h := waitForJobAux_finds jobId (resolvedMaxAttempts options) poll
      (resolvedMaxAttempts options) 0 k (Nat.zero_le k) (by omega)
      (fun j hj1 hj2 => hbefore j hj2) hterm
    exact h
  · intro hall
    have h := waitForJobAux_exhausts jobId (resolvedMaxAttempts options) poll
      (resolvedMaxAttempts options) 0
      (fun j hj1 hj2 => hall j (by omega))
    simpa using h

/-- Witness for C2: a stream that completes on its third poll is returned
after exactly 3 calls, and a stream that never terminates exhausts the
default 60 attempts. -/
theorem waitForJob_polling_witness :
    waitForJob "job_abc123" none pollSeqJob = ⟨.ok jobRespCompleted, 3⟩ ∧
    waitForJob "job_abc123" none pollSeqJobStuck =
      ⟨.error (.plain ("Job job_abc123 did not complete after 60 attempts")),
       60⟩ := by
  constructor
  · have h := (waitForJob_polling "job_abc123" none pollSeqJob).1 2
      (by decide) (by decide) (by decide)
    simpa using h
  · have h := (waitForJob_polling "job_abc123" none pollSeqJobStuck).2
      (by decide)
    simpa using h

/-- Any successfully returned batch poll result passed the loop guard, whose
only terminal status is `completed`. -/
lemma waitForBatchAux_ok_completed (batchId : String) (maxAttempts : Nat)
    (poll : Nat → BatchResponse) :
    ∀ (fuel i : Nat) (r : BatchResponse),
      (waitForBatchAux batchId maxAttempts poll i fuel).result = .ok r →
      r.status = .completed := by
  intro fuel
  induction fuel with
  | zero => intro i r h; simp [waitForBatchAux] at h
  | succ fuel ih =>
    intro i r h
    by_cases hterm : batchStatusTerminal (poll i).status = true
    · simp only [waitForBatchAux, hterm, if_true] at h
      have : poll i = r := by simpa using h
      subst this
      simpa [batchStatusTerminal, decide_eq_true_iff] using hterm
    · simp only [waitForBatchAux, Bool.not_eq_true] at hterm h
      rw [hterm] at h
      simp only [Bool.false_eq_true, if_false] at h
      exact ih (i + 1) r h

/-- C4: `waitForBatch` treats `partial` and `processing` as non-terminal
(polling again) and returns only on a response whose status is `completed`;
whether a per-video result inside the batch is `failed` is irrelevant to the
loop guard (the poll stream is universally quantified over `results`). -/
theorem waitForBatch_polling (batchId : String) (options : Option WaitOptions)
    (poll : Nat → BatchResponse) :
    (∀ j, batchStatusTerminal (poll j).status = false ↔
      ((poll j).status = .partialStatus ∨ (poll j).status = .processing)) ∧
    (∀ k, k < resolvedMaxAttempts options →
      (∀ j, j < k → batchStatusTerminal (poll j).status = false) →
      batchStatusTerminal (poll k).status = true →
      waitForBatch batchId options poll = ⟨.ok (poll k), k + 1⟩) ∧
    (∀ r, (waitForBatch batchId options poll).result = .ok r →
      r.status = .completed) := by
  refine ⟨?_, ?_, ?_⟩
  · intro j
    cases h : (poll j).status <;> simp [batchStatusTerminal, h]
  · intro k hk hbefore hterm
    exact waitForBatchAux_finds batchId (resolvedMaxAttempts options) poll
      (resolvedMaxAttempts options) 0 k (Nat.zero_le k) (by omega)
      (fun j hj1 hj2 => hbefore j hj2) hterm
  · intro r h
    exact waitForBatchAux_ok_completed batchId (resolvedMaxAttempts options)
      poll (resolvedMaxAttempts options) 0 r h

/-- Witness for C4: a batch stream that is `partial` twice (containing a
`failed` per-video result) and then `completed` (still containing a `failed`
per-video result) is returned on the `completed` response after 3 calls. -/
theorem waitForBatch_polling_witness :
    waitForBatch "batch_1" none pollSeqBatch = ⟨.ok batchRespCompleted, 3⟩ ∧
    batchRespCompleted.results.any
      (fun r => r.status = TranscribeStatus.failed) = true := by
  constructor
  · have h := (waitForBatch_polling "batch_1" none pollSeqBatch).2.1 2
      (by decide) (by decide) (by decide)
    simpa using h
  · decide

/-- C5: constructing the client with an empty (or missing, which the dynamic
call surface presents as a falsy value) apiKey fails at construction time —
`mkClient` consumes no fetch outcome, so no network call can be involved —
while a non-empty apiKey yields a constructed client. -/
theorem mkClient_requires_apiKey (o : YouTubeTranscriptOptions) :
    (o.apiKey = "" →
      mkClient o = .error (.plain
        "API key is required. Get one at https://youtubetranscript.dev")) ∧
    (o.apiKey ≠ "" →
      ∃ c, mkClient o = .ok c ∧ c.apiKey = o.apiKey) := by
  constructor
  · intro h
    simp [mkClient, h]
  · intro h
    refine ⟨⟨o.apiKey, stripTrailingSlashes (jsOrStr o.baseUrl DEFAULT_BASE_URL),
      jsOrNat o.timeout DEFAULT_TIMEOUT⟩, ?_, rfl⟩
    simp [mkClient, h]

/-- Witness for C5: an empty key fails, the key `"your_api_key"` succeeds. -/
theorem mkClient_requires_apiKey_witness :
    mkClient ⟨"", none, none⟩ = .error (.plain
      "API key is required. Get one at https://youtubetranscript.dev") ∧
    ∃ c, mkClient ⟨"your_api_key", none, none⟩ = .ok c ∧
      c.apiKey = "your_api_key" :=
  ⟨(mkClient_requires_apiKey ⟨"", none, none⟩).1 rfl,
   (mkClient_requires_apiKey ⟨"your_api_key", none, none⟩).2 (by decide)⟩

/-- Each polling call of `waitForJobAux` only ever produces an `ok` response
or the plain exhaustion error, never a typed error. -/
lemma waitForJobAux_error_plain (jobId : String) (maxAttempts : Nat)
    (poll : Nat → TranscribeResponse) :
    ∀ (fuel i : Nat) (e : ThrownError),
      (waitForJobAux jobId maxAttempts poll i fuel).result = .error e →
      e.isTypedTranscriptError = false := by
  intro fuel
  induction fuel with
  | zero =>
    intro i e h
    simp only [waitForJobAux] at h
    cases h
    rfl
  | succ fuel ih =>
    intro i e h
    by_cases hterm : jobStatusTerminal (poll i).status = true
    · simp [waitForJobAux, hterm] at h
    · simp only [waitForJobAux, Bool.not_eq_true] at hterm h
      rw [hterm] at h
      simp only [Bool.false_eq_true, if_false] at h
      exact ih (i + 1) e h

/-- C6: the timeout failure of `request` is a plain error whose message names
the request path and the configured timeout value; the polling-exhaustion
failures of `waitForJob` and `waitForBatch` are plain errors raised after the
resolved `maxAttempts` is reached without a terminal status; none of these is
an `instanceof YouTubeTranscriptError`. -/
theorem timeout_and_exhaustion_untyped (c : ClientState) (path : String)
    (jobId batchId : String) (options : Option WaitOptions)
    (poll : Nat → TranscribeResponse) (pollB : Nat → BatchResponse) :
    (request (α := TranscribeResponse) c path .abortError =
      .error (.plain ("Request to " ++ path ++ " timed out after " ++
        toString c.timeout ++ "ms")) ∧
     ∀ e, request (α := TranscribeResponse) c path .abortError = .error e →
       e.isTypedTranscriptError = false) ∧
    ((∀ j, j < resolvedMaxAttempts options →
        jobStatusTerminal (poll j).status = false) →
      (waitForJob jobId options poll).calls = resolvedMaxAttempts options ∧
      (waitForJob jobId options poll).result =
        .error (.plain ("Job " ++ jobId ++ " did not complete after " ++
          toString (resolvedMaxAttempts options) ++ " attempts")) ∧
      ∀ e, (waitForJob jobId options poll).result = .error e →
        e.isTypedTranscriptError = false) ∧
    ((∀ j, j < resolvedMaxAttempts options →
        batchStatusTerminal (pollB j).status = false) →
      (waitForBatch batchId options pollB).calls = resolvedMaxAttempts options ∧
      (waitForBatch batchId options pollB).result =
        .error (.plain ("Batch " ++ batchId ++ " did not complete after " ++
          toString (resolvedMaxAttempts options) ++ " attempts")) ∧
      ∀ e, (waitForBatch batchId options pollB).result = .error e →
        e.isTypedTranscriptError = false) := by
  refine ⟨⟨rfl, ?_⟩, ?_, ?_⟩
  · intro e h
    cases h
    rfl
  · intro hall
    have h := waitForJobAux_exhausts jobId (resolvedMaxAttempts options) poll
      (resolvedMaxAttempts options) 0 (fun j hj1 hj2 => hall j (by omega))
    rw [waitForJob, h]
    refine ⟨by simp, by simp, ?_⟩
    intro e he
    simp only at he
    cases he
    rfl
  · intro hall
    have h := waitForBatchAux_exhausts batchId (resolvedMaxAttempts options)
      pollB (resolvedMaxAttempts options) 0 (fun j hj1 hj2 => hall j (by omega))
    rw [waitForBatch, h]
    refine ⟨by simp, by simp, ?_⟩
    intro e he
    simp only at he
    cases he
    rfl

/-- Witness for C6: concrete timeout and exhaustion errors. -/
theorem timeout_and_exhaustion_untyped_witness :
    request (α := TranscribeResponse) ⟨"your_api_key", "https://x", 30000⟩
      "/transcribe" .abortError =
      .error (.plain "Request to /transcribe timed out after 30000ms") ∧
    (waitForJob "job_abc123" none pollSeqJobStuck).calls = 60 := by
  constructor
  · have h := (timeout_and_exhaustion_untyped
      ⟨"your_api_key", "https://x", 30000⟩ "/transcribe" "job_abc123"
      "batch_1" none pollSeqJobStuck (fun _ => batchRespPartial)).1.1
    simpa using h
  · have h := ((timeout_and_exhaustion_untyped
      ⟨"your_api_key", "https://x", 30000⟩ "/transcribe" "job_abc123"
      "batch_1" none pollSeqJobStuck (fun _ => batchRespPartial)).2.1
      (by decide)).1
    simpa using h

/-- C8: the batch operation performs no client-side validation of the
`video_ids` list: for every request — the universally quantified `req`
covers the empty list and lists of more than 100 elements — the body sent to
`/batch` is the request unchanged, and given any 200 response the operation
returns it without ever raising a client-side length error. -/
theorem batch_passthrough (c : ClientState) (req : BatchRequest) :
    (∀ fetched : FetchResult BatchResponse,
      (batchOp c req fetched).1.body = some (.batchBody req) ∧
      (batchOp c req fetched).1.url = c.baseUrl ++ "/batch" ∧
      (batchOp c req fetched).1.method = "POST") ∧
    (∀ (b : BatchResponse) (eb : ErrorResponse) (h : HeadersMap),
      (batchOp c req (.ok ⟨200, b, eb, h⟩)).2 = .ok b) := by
  constructor
  · intro fetched
    exact ⟨rfl, rfl, rfl⟩
  · intro b eb h
    rfl

/-- Every public client method leaves the configuration untouched. -/
lemma runOp_fst (c : ClientState) (op : ClientOp) : (runOp c op).1 = c := by
  cases op <;> rfl

/-- C9: the client's configuration (apiKey, baseUrl, timeout) is fixed at
construction: after any sequence of invocations of the seven public methods,
every configuration field equals its value at construction. -/
theorem client_config_immutable (c : ClientState) (ops : List ClientOp) :
    runOps c ops = c ∧
    (runOps c ops).apiKey = c.apiKey ∧
    (runOps c ops).baseUrl = c.baseUrl ∧
    (runOps c ops).timeout = c.timeout := by
  have h : runOps c ops = c := by
    induction ops generalizing c with
    | nil => rfl
    | cons op ops ih =>
      show runOps ((runOp c op).1) ops = c
      rw [runOp_fst]
      exact ih c
  exact ⟨h, by rw [h], by rw [h], by rw [h]⟩

/-- A `takeWhile` of the slash test contains only slashes, hence is a
`replicate` of its own length. -/
lemma takeWhileSlash_eq_replicate (l : List Char) :
    l.takeWhile (fun c => c = Char.ofNat 47) =
      List.replicate (l.takeWhile (fun c => c = Char.ofNat 47)).length
        (Char.ofNat 47) := by
  apply List.eq_replicate_length.2
  intro b hb
  have hmem := List.mem_takeWhile_imp hb
  simpa using hmem

/-- Every string is its trailing-slash normalization followed by some run of
slashes. -/
lemma stripTrailingSlashes_decomp (s : String) :
    ∃ k, s = stripTrailingSlashes s ++
      String.mk (List.replicate k (Char.ofNat 47)) := by
  refine ⟨(s.data.reverse.takeWhile (fun c => c = Char.ofNat 47)).length, ?_⟩
  apply String.ext
  rw [String.data_append]
  show s.data =
    ((s.data.reverse.dropWhile (fun c => c = Char.ofNat 47)).reverse) ++
      List.replicate _ (Char.ofNat 47)
  conv_lhs => rw [← List.reverse_reverse s.data,
    ← List.takeWhile_append_dropWhile (p := fun c => c = Char.ofNat 47)
      (l := s.data.reverse)]
  rw [List.reverse_append]
  congr 1
  conv_lhs => rw [takeWhileSlash_eq_replicate]
  rw [List.reverse_replicate]

/-- The trailing-slash normalization never ends in a slash. -/
lemma stripTrailingSlashes_no_trailing (s : String) :
    (stripTrailingSlashes s).data.getLast? ≠ some (Char.ofNat 47) := by
  show ((s.data.reverse.dropWhile (fun c => c = Char.ofNat 47)).reverse).getLast? ≠
    some (Char.ofNat 47)
  rw [List.getLast?_reverse]
  intro h
  cases hh : (s.data.reverse.dropWhile (fun c => c = Char.ofNat 47)).head? with
  | none => rw [hh] at h; cases h
  | some a =>
    rw [hh] at h
    cases h
    have := List.head?_dropWhile_not (fun c => c = Char.ofNat 47)
      s.data.reverse
    rw [hh] at this
    simp at this

/-- C7: a non-empty custom base URL has all trailing slashes stripped at
construction — the stored base URL is the supplied one minus a run of
trailing slashes and does not end in a slash — and every request URL is that
normalized base followed by the path. -/
theorem baseUrl_normalized (o : YouTubeTranscriptOptions) (b : String)
    (hkey : o.apiKey ≠ "") (hbase : o.baseUrl = some b) (hb : b ≠ "") :
    ∃ c, mkClient o = .ok c ∧
      (∃ k, b = c.baseUrl ++ String.mk (List.replicate k (Char.ofNat 47))) ∧
      c.baseUrl.data.getLast? ≠ some (Char.ofNat 47) ∧
      ∀ path, requestUrl c path = c.baseUrl ++ path := by
  refine ⟨⟨o.apiKey, stripTrailingSlashes b, jsOrNat o.timeout DEFAULT_TIMEOUT⟩,
    ?_, ?_, ?_, ?_⟩
  · simp [mkClient, hkey, hbase, jsOrStr, hb]
  · exact stripTrailingSlashes_decomp b
  · exact stripTrailingSlashes_no_trailing b
  · intro path
    rfl

/-- Witness for C7: base `https://x/` with path `/transcribe` yields
`https://x/transcribe`, not `https://x//transcribe`. -/
theorem baseUrl_normalized_witness :
    (∃ c, mkClient ⟨"your_api_key", some "https://x/", none⟩ = .ok c ∧
      (∃ k, "https://x/" = c.baseUrl ++
        String.mk (List.replicate k (Char.ofNat 47))) ∧
      c.baseUrl.data.getLast? ≠ some (Char.ofNat 47) ∧
      ∀ path, requestUrl c path = c.baseUrl ++ path) ∧
    requestUrl ⟨"your_api_key", "https://x", 30000⟩ "/transcribe" =
      "https://x/transcribe" :=
  ⟨baseUrl_normalized ⟨"your_api_key", some "https://x/", none⟩ "https://x/"
    (by decide) rfl (by decide), by decide⟩

/-- Falsy-or with a positive default is always positive. -/
lemma jsOrNat_pos (a : Option Nat) (d : Nat) (hd : 1 ≤ d) :
    1 ≤ jsOrNat a d := by
  cases a with
  | none => exact hd
  | some n =>
    by_cases h : n = 0
    · simp [jsOrNat, h]; omega
    · simp [jsOrNat, h]; omega

/-- The job polling loop makes at least one call whenever it has fuel. -/
lemma waitForJobAux_calls_ge (jobId : String) (maxAttempts : Nat)
    (poll : Nat → TranscribeResponse) :
    ∀ (fuel i : Nat),
      i ≤ (waitForJobAux jobId maxAttempts poll i fuel).calls ∧
      (1 ≤ fuel →
        i + 1 ≤ (waitForJobAux jobId maxAttempts poll i fuel).calls) := by
  intro fuel
  induction fuel with
  | zero =>
    intro i
    exact ⟨Nat.le_refl i, by omega⟩
  | succ fuel ih =>
    intro i
    by_cases hterm : jobStatusTerminal (poll i).status = true
    · simp only [waitForJobAux, hterm, if_true]
      exact ⟨by omega, fun _ => Nat.le_refl (i + 1)⟩
    · simp only [waitForJobAux, Bool.not_eq_true] at hterm ⊢
      rw [hterm]
      simp only [Bool.false_eq_true, if_false]
      have h := (ih (i + 1)).1
      exact ⟨by omega, fun _ => h⟩

/-- C10: an option explicitly supplied as 0 is silently replaced by its
default, because options are combined with JavaScript falsy-or: timeout 0
becomes 30000 ms, interval 0 becomes 5000 ms, maxAttempts 0 becomes 60, and
consequently no configuration can make a polling loop run with zero
attempts (it always makes at least one call) or a zero resolved delay. -/
theorem zero_options_fall_to_defaults :
    (∀ o : YouTubeTranscriptOptions, o.apiKey ≠ "" → o.timeout = some 0 →
      ∃ c, mkClient o = .ok c ∧ c.timeout = 30000) ∧
    (∀ w : WaitOptions, w.interval = some 0 →
      resolvedInterval (some w) = 5000) ∧
    (∀ w : WaitOptions, w.maxAttempts = some 0 →
      resolvedMaxAttempts (some w) = 60) ∧
    (∀ options, 1 ≤ resolvedInterval options ∧
      1 ≤ resolvedMaxAttempts options) ∧
    (∀ (jobId : String) (options : Option WaitOptions)
      (poll : Nat → TranscribeResponse),
      1 ≤ (waitForJob jobId options poll).calls) := by
  refine ⟨?_, ?_, ?_, ?_, ?_⟩
  · intro o hkey htime
    refine ⟨⟨o.apiKey, stripTrailingSlashes (jsOrStr o.baseUrl DEFAULT_BASE_URL),
      jsOrNat o.timeout DEFAULT_TIMEOUT⟩, ?_, ?_⟩
    · simp [mkClient, hkey]
    · simp [htime, jsOrNat, DEFAULT_TIMEOUT]
  · intro w hw
    simp [resolvedInterval, hw, jsOrNat]
  · intro w hw
    simp [resolvedMaxAttempts, hw, jsOrNat]
  · intro options
    exact ⟨jsOrNat_pos _ 5000 (by omega), jsOrNat_pos _ 60 (by omega)⟩
  · intro jobId options poll
    have hpos : 1 ≤ resolvedMaxAttempts options :=
      jsOrNat_pos _ 60 (by omega)
    have h := (waitForJobAux_calls_ge jobId (resolvedMaxAttempts options) poll
      (resolvedMaxAttempts options) 0).2 hpos
    exact h

/-- Witness for C10: a client built with timeout 0 gets 30000 ms, wait
options of 0 get the 5000/60 defaults, and a loop configured with
maxAttempts 0 still makes at least one call. -/
theorem zero_options_fall_to_defaults_witness :
    (∃ c, mkClient ⟨"your_api_key", none, some 0⟩ = .ok c ∧
      c.timeout = 30000) ∧
    resolvedInterval (some ⟨some 0, some 0⟩) = 5000 ∧
    resolvedMaxAttempts (some ⟨some 0, some 0⟩) = 60 ∧
    1 ≤ (waitForJob "job_abc123" (some ⟨some 0, some 0⟩) pollSeqJobStuck).calls :=
  ⟨(zero_options_fall_to_defaults.1 ⟨"your_api_key", none, some 0⟩
      (by decide) rfl),
   zero_options_fall_to_defaults.2.1 ⟨some 0, some 0⟩ rfl,
   zero_options_fall_to_defaults.2.2.1 ⟨some 0, some 0⟩ rfl,
   zero_options_fall_to_defaults.2.2.2.2 "job_abc123"
     (some ⟨some 0, some 0⟩) pollSeqJobStuck⟩

/-- The function `parseInt10` produces a number (rather than NaN) exactly when the input,
after optional whitespace and sign, starts with a decimal digit. -/
lemma parseInt10_num_iff (s : String) :
    (∃ n, parseInt10 s = .num n) ↔ leadsWithDigit s = true := by
  unfold parseInt10 leadsWithDigit
  cases hl : s.data.dropWhile (fun c => c.isWhitespace) with
  | nil => simp [stripSign]
  | cons c cs =>
    by_cases hminus : c = Char.ofNat 45
    · simp only [stripSign, hminus, if_pos rfl, if_pos (Or.inl rfl)]
      cases cs with
      | nil => simp
      | cons d ds =>
        by_cases hd : d.isDigit = true
        · simp [List.takeWhile_cons, hd]
        · simp only [Bool.not_eq_true] at hd
          simp [List.takeWhile_cons, hd]
    · by_cases hplus : c = Char.ofNat 43
      · have hne : ¬ c = Char.ofNat 45 := hminus
        simp only [stripSign, if_neg hne, hplus, if_pos rfl,
          if_pos (Or.inr rfl)]
        cases cs with
        | nil => simp
        | cons d ds =>
          by_cases hd : d.isDigit = true
          · simp [List.takeWhile_cons, hd]
          · simp only [Bool.not_eq_true] at hd
            simp [List.takeWhile_cons, hd]
      · have hnor : ¬ (c = Char.ofNat 45 ∨ c = Char.ofNat 43) := by
          intro h; cases h with
          | inl h => exact hminus h
          | inr h => exact hplus h
        simp only [stripSign, if_neg hminus, if_neg hplus, if_neg hnor]
        by_cases hc : c.isDigit = true
        · simp [List.takeWhile_cons, hc]
        · simp only [Bool.not_eq_true] at hc
          simp [List.takeWhile_cons, hc]

/-- Counterexample to C3 as stated: on a 429 response whose `Retry-After`
header is present but not a valid integer, `retryAfter` is not absent — the
header `"abc"` yields a present NaN value, and the header `"12abc"` (also
not a valid integer) yields the present, non-NaN number 12. -/
theorem rateLimit_retryAfter_counterexample :
    (createError 429 ⟨"rate_limited", "Too many requests", none⟩
      (hdrRetryAfter "abc")).retryAfter = some JSNum.nan ∧
    (createError 429 ⟨"rate_limited", "Too many requests", none⟩
      (hdrRetryAfter "abc")).retryAfter ≠ none ∧
    (createError 429 ⟨"rate_limited", "Too many requests", none⟩
      (hdrRetryAfter "12abc")).retryAfter = some (JSNum.num 12) := by
  refine ⟨by decide, by decide, by decide⟩

/-- C3 amended: on a 429 response, `retryAfter` is absent exactly when the
`Retry-After` header is absent or empty; when the header is a non-empty
string `s`, `retryAfter` is present and equals `parseInt(s, 10)`, which is a
valid (non-NaN) number exactly when `s`, after optional leading whitespace
and an optional sign, starts with a decimal digit (so a non-numeric header
gives a present NaN, and digits followed by garbage still parse). -/
theorem rateLimit_retryAfter_characterization (body : ErrorResponse)
    (headers : HeadersMap) :
    ((createError 429 body headers).retryAfter = none ↔
      (headers.get "Retry-After" = none ∨
        headers.get "Retry-After" = some "")) ∧
    (∀ s, headers.get "Retry-After" = some s → s ≠ "" →
      (createError 429 body headers).retryAfter = some (parseInt10 s) ∧
      ((∃ n, (createError 429 body headers).retryAfter =
          some (JSNum.num n)) ↔ leadsWithDigit s = true)) := by
  have hre : (createError 429 body headers).retryAfter =
      (match headers.get "Retry-After" with
       | none => none
       | some s => if s = "" then none else some (parseInt10 s)) := by
    simp [createError, mkRateLimitError, mkYouTubeTranscriptError]
  constructor
  · rw [hre]
    cases h : headers.get "Retry-After" with
    | none => simp
    | some s =>
      by_cases hs : s = ""
      · simp [hs]
      · simp [hs]
  · intro s hget hs
    rw [hre, hget]
    simp only [if_neg hs]
    refine ⟨trivial, ?_⟩
    rw [← parseInt10_num_iff]
    constructor
    · rintro ⟨n, hn⟩
      exact ⟨n, by injection hn⟩
    · rintro ⟨n, hn⟩
      exact ⟨n, by rw [hn]⟩

/-- Witness for the amended C3: the header `"7"` yields a present
`retryAfter` equal to `parseInt10 "7"`. -/
theorem rateLimit_retryAfter_characterization_witness :
    (createError 429 ⟨"rate_limited", "Too many requests", none⟩
      (hdrRetryAfter "7")).retryAfter = some (parseInt10 "7") :=
  ((rateLimit_retryAfter_characterization
      ⟨"rate_limited", "Too many requests", none⟩
      (hdrRetryAfter "7")).2 "7" rfl (by decide)).1

end YTSdk
